import Mathlib

/-
Shallow embedding of the authentication core of the ecommerce monorepo:
token issuer (jsonwebtoken sign/verify), credential store (AuthRepository
over the users and refresh-token tables), the AuthService orchestration
(register, login, refreshToken, logout, verifyAccessToken) and the
AuthMiddleware bearer-token gate (verifyToken).

Modelling conventions:
  - A signed JWT is a record of its payload, signing secret, issued-at and
    expiry instants; jwt.sign at time `now` with lifetime `l` yields
    expiry `now + l`, and jwt.verify succeeds iff the secret matches and
    the current time is strictly before expiry (jsonwebtoken raises
    TokenExpiredError once `now >= exp`).  Determinism of jwt.sign (same
    payload, secret and issued-at give the identical token string) is
    reflected by the record equality.
  - bcrypt.hash is modelled as a deterministic injective tagging of the
    password with the cost factor; bcrypt.compare succeeds iff the hash
    was produced from the password at the configured cost 12.  The claims
    below only depend on the control flow around the comparison, never on
    cryptographic properties.
  - The Prisma store is a pair of lists (users, refreshTokens); findUnique
    and findFirst become List.find?, deleteMany becomes List.filter.
  - Fallible service methods return `Except AuthError result × Store`,
    making the store state after the call explicit.
  - The Authorization header value is modelled already split on spaces
    (JS `value.split(' ')`): a list of words, each word either an
    arbitrary non-JWT string or a well-formed token.  A present-but-empty
    header value "" splits to [""], the only falsy full header.
-/

deriving instance DecidableEq for Except

namespace Ecommerce

inductive Role
  | USER
  | ADMIN
deriving DecidableEq, Repr

/-- A JWT payload as signed by the service: access tokens carry
`\x7buserId, role\x7d`, refresh tokens carry `\x7buserId\x7d`. -/
inductive Payload
  | access (userId : String) (role : Role)
  | refresh (userId : String)
deriving DecidableEq, Repr

/-- The `userId` claim, present in both payload shapes (the TS cast
`as \x7buserId: string\x7d` always reads it). -/
def Payload.userId : Payload → String
  | .access u _ => u
  | .refresh u => u

/-- The `role` claim; `none` models JS `undefined` when the verified token
carries no role (a refresh payload cast to JWTPayload). -/
def Payload.role : Payload → Option Role
  | .access _ r => some r
  | .refresh _ => none

/-- A signed JWT: payload plus signing secret, issued-at and expiry. -/
structure Token where
  payload : Payload
  secret : String
  iat : Nat
  exp : Nat
deriving DecidableEq, Repr

/-- jwt.sign: deterministic in payload, secret and signing time. -/
def jwtSign (p : Payload) (secret : String) (now lifetime : Nat) : Token :=
  ⟨p, secret, now, now + lifetime⟩

/-- jwt.verify: succeeds iff the signature (secret) matches and the token
is not yet expired; a token is valid strictly before its expiry instant. -/
def jwtVerify (t : Token) (secret : String) (now : Nat) : Option Payload :=
  if t.secret = secret ∧ now < t.exp then some t.payload else none

/-- Service configuration (config.ts): two distinct signing secrets and
the bcrypt cost factor (source value 12). -/
structure Config where
  jwtSecret : String
  jwtRefreshSecret : String
  saltRounds : Nat
deriving DecidableEq, Repr

/-- bcrypt.hash modelled as injective deterministic tagging; the cost
factor is embedded in the hash as in real bcrypt output. -/
def bcryptHash (password : String) (saltRounds : Nat) : String :=
  "bcrypt$" ++ toString saltRounds ++ "$" ++ password

/-- bcrypt.compare: succeeds iff the hash was produced from this password
at the configured cost 12. -/
def bcryptCompare (password hash : String) : Bool :=
  bcryptHash password 12 == hash

/-- A persisted User row (Prisma users table). -/
structure User where
  id : String
  email : String
  password : String
  role : Role
  createdAt : Nat
  updatedAt : Nat
deriving DecidableEq, Repr

/-- A persisted RefreshToken row (token string plus owning userId). -/
structure RefreshTokenRecord where
  token : Token
  userId : String
deriving DecidableEq, Repr

/-- The Prisma-backed store state. -/
structure Store where
  users : List User
  refreshTokens : List RefreshTokenRecord
deriving DecidableEq, Repr

namespace AuthRepository

/-- prisma.user.create with role USER; Prisma assigns the fresh id and
the timestamps, passed in explicitly here. -/
def createUser (s : Store) (email hashedPassword : String) (newId : String)
    (now : Nat) : User × Store :=
  let u : User := ⟨newId, email, hashedPassword, Role.USER, now, now⟩
  (u, { s with users := s.users ++ [u] })

/-- prisma.user.findUnique on email. -/
def findUserByEmail (s : Store) (email : String) : Option User :=
  s.users.find? (fun u => u.email == email)

/-- prisma.user.findUnique on id. -/
def findUserById (s : Store) (id : String) : Option User :=
  s.users.find? (fun u => u.id == id)

/-- prisma.user.findUnique with select id, coerced to a boolean. -/
def emailExists (s : Store) (email : String) : Bool :=
  (s.users.find? (fun u => u.email == email)).isSome

/-- prisma.refreshToken.create. -/
def createRefreshToken (s : Store) (token : Token) (userId : String) : Store :=
  { s with refreshTokens := s.refreshTokens ++ [⟨token, userId⟩] }

/-- prisma.refreshToken.findFirst with select userId. -/
def findRefreshToken (s : Store) (token : Token) : Option String :=
  (s.refreshTokens.find? (fun r => r.token == token)).map (fun r => r.userId)

/-- prisma.refreshToken.deleteMany on the token: removes every matching
row, succeeding (as a no-op) when none matches. -/
def deleteRefreshToken (s : Store) (token : Token) : Store :=
  { s with refreshTokens := s.refreshTokens.filter (fun r => !(r.token == token)) }

end AuthRepository

/-- User data returned to clients: password (hash) stripped. -/
structure UserResponse where
  id : String
  email : String
  role : Role
  createdAt : Nat
deriving DecidableEq, Repr

/-- The access/refresh token pair returned by register, login, refresh. -/
structure AuthTokens where
  accessToken : Token
  refreshToken : Token
deriving DecidableEq, Repr

/-- Decoded access-token claims attached to the request (userId, role);
role is `none` when the claim is absent (JS undefined). -/
structure JWTPayload where
  userId : String
  role : Option Role
deriving DecidableEq, Repr

/-- The typed error hierarchy (AuthError): machine code, human message,
HTTP status. -/
structure AuthError where
  code : String
  message : String
  statusCode : Nat
deriving DecidableEq, Repr

/-- ValidationError: code VALIDATION_ERROR, status 400. -/
def validationError (m : String) : AuthError :=
  ⟨"VALIDATION_ERROR", m, 400⟩

/-- UnauthorizedError: code UNAUTHORIZED, status 401. -/
def unauthorizedError (m : String) : AuthError :=
  ⟨"UNAUTHORIZED", m, 401⟩

namespace AuthService

open AuthRepository

/-- generateAccessToken: payload `\x7buserId, role\x7d`, access secret,
expiresIn 1h (3600 s). -/
def generateAccessToken (cfg : Config) (userId : String) (role : Role)
    (now : Nat) : Token :=
  jwtSign (.access userId role) cfg.jwtSecret now 3600

/-- generateRefreshToken: payload `\x7buserId\x7d`, refresh secret,
expiresIn 7d (604800 s). -/
def generateRefreshToken (cfg : Config) (userId : String) (now : Nat) : Token :=
  jwtSign (.refresh userId) cfg.jwtRefreshSecret now 604800

/-- generateTokens: both tokens issued at the same instant. -/
def generateTokens (cfg : Config) (userId : String) (role : Role)
    (now : Nat) : AuthTokens :=
  ⟨generateAccessToken cfg userId role now, generateRefreshToken cfg userId now⟩

/-- formatUserResponse: strips the password hash. -/
def formatUserResponse (u : User) : UserResponse :=
  ⟨u.id, u.email, u.role, u.createdAt⟩

/-- AuthService.register: duplicate-email check, hash, create user,
issue tokens, persist the refresh token. -/
def register (cfg : Config) (s : Store) (email password : String)
    (newId : String) (now : Nat) :
    Except AuthError (UserResponse × AuthTokens) × Store :=
  if emailExists s email then
    (.error (validationError "El email ya está registrado"), s)
  else
    let hashed := bcryptHash password cfg.saltRounds
    let created := createUser s email hashed newId now
    let user := created.1
    let s1 := created.2
    let tokens := generateTokens cfg user.id user.role now
    let s2 := createRefreshToken s1 tokens.refreshToken user.id
    (.ok (formatUserResponse user, tokens), s2)

/-- AuthService.login: find user by email, compare password, issue and
persist tokens; both failure causes raise the identical
UnauthorizedError. -/
def login (cfg : Config) (s : Store) (email password : String) (now : Nat) :
    Except AuthError (UserResponse × AuthTokens) × Store :=
  match findUserByEmail s email with
  | none => (.error (unauthorizedError "Credenciales inválidas"), s)
  | some user =>
    if bcryptCompare password user.password then
      let tokens := generateTokens cfg user.id user.role now
      let s1 := createRefreshToken s tokens.refreshToken user.id
      (.ok (formatUserResponse user, tokens), s1)
    else
      (.error (unauthorizedError "Credenciales inválidas"), s)

/-- AuthService.refreshToken: verify signature/expiry with the refresh
secret, look the token up in the store, check the stored owner against
the verified claim, look up the user, reissue only the access token and
return the same refresh token.  The JsonWebTokenError raised by
jwt.verify is caught and mapped to the same UnauthorizedError as the
store-lookup failure. -/
def refreshToken (cfg : Config) (s : Store) (rt : Token) (now : Nat) :
    Except AuthError AuthTokens × Store :=
  match jwtVerify rt cfg.jwtRefreshSecret now with
  | none => (.error (unauthorizedError "Refresh token inválido"), s)
  | some decoded =>
    match findRefreshToken s rt with
    | none => (.error (unauthorizedError "Refresh token inválido"), s)
    | some storedUserId =>
      if storedUserId = decoded.userId then
        match findUserById s decoded.userId with
        | none => (.error (unauthorizedError "Usuario no encontrado"), s)
        | some user =>
          (.ok ⟨generateAccessToken cfg user.id user.role now, rt⟩, s)
      else
        (.error (unauthorizedError "Refresh token inválido"), s)

/-- AuthService.logout: delete the refresh token; deleteMany never fails
on an absent token. -/
def logout (s : Store) (rt : Token) : Store :=
  AuthRepository.deleteRefreshToken s rt

/-- AuthService.verifyAccessToken: jwt.verify with the access secret;
any verification failure surfaces as UnauthorizedError. -/
def verifyAccessToken (cfg : Config) (t : Token) (now : Nat) :
    Except AuthError JWTPayload :=
  match jwtVerify t cfg.jwtSecret now with
  | some p => .ok ⟨p.userId, p.role⟩
  | none => .error (unauthorizedError "Token inválido")

end AuthService

namespace AuthMiddleware

/-- One space-separated word of the Authorization header value: either an
arbitrary string that is not a well-formed JWT, or a token string. -/
inductive HeaderWord
  | text (s : String)
  | tok (t : Token)
deriving DecidableEq, Repr

/-- JS falsiness of a word: only the empty string is falsy. -/
def HeaderWord.falsy : HeaderWord → Bool
  | .text "" => true
  | _ => false

/-- JS falsiness of the whole header value: a present header is falsy
exactly when its value is "", whose split is [""]. -/
def headerFalsy (ws : List HeaderWord) : Bool :=
  ws == [HeaderWord.text ""]

/-- authService.verifyAccessToken applied to one header word: a word
that is not a well-formed JWT makes jwt.verify raise, surfaced as the
same UnauthorizedError. -/
def verifyAccessTokenWord (cfg : Config) (w : HeaderWord) (now : Nat) :
    Except AuthError JWTPayload :=
  match w with
  | .text _ => .error (unauthorizedError "Token inválido")
  | .tok t => AuthService.verifyAccessToken cfg t now

/-- Outcome of the middleware: an HTTP rejection or acceptance with the
identity attached to the request. -/
inductive MwOutcome
  | reject (statusCode : Nat) (message : String)
  | accept (userId : String) (role : Option Role)
deriving DecidableEq, Repr

/-- AuthMiddleware.verifyToken: 401 when the header is absent or falsy;
token := split(' ')[1], 401 when missing or falsy; 401 when verification
fails; otherwise attach \x7buserId, role\x7d from the claims.  The first
word is never compared against "Bearer". -/
def verifyToken (cfg : Config) (header : Option (List HeaderWord))
    (now : Nat) : MwOutcome :=
  match header with
  | none => .reject 401 "Token de acceso requerido"
  | some ws =>
    if headerFalsy ws then
      .reject 401 "Token de acceso requerido"
    else
      match ws.get? 1 with
      | none => .reject 401 "Formato de token inválido"
      | some w =>
        if w.falsy then
          .reject 401 "Formato de token inválido"
        else
          match verifyAccessTokenWord cfg w now with
          | .error _ => .reject 401 "Token inválido o expirado"
          | .ok p => .accept p.userId p.role

/-- The spec's well-formedness predicate on a split header value:
exactly the form "Bearer <token>" with a nonempty token word. -/
def isBearerForm : List HeaderWord → Bool
  | [HeaderWord.text "Bearer", w] => !w.falsy
  | _ => false

end AuthMiddleware

/-- Example configuration used by concrete witnesses. -/
def cfgEx : Config := ⟨"access-secret", "refresh-secret", 12⟩

/-- Token pair issued at instant 0 for user u1 with role USER, as by a
register or login call. -/
def tksEx : AuthTokens := AuthService.generateTokens cfgEx "u1" Role.USER 0

/-- Example persisted user record. -/
def uEx : User := ⟨"u1", "alice@example.com", bcryptHash "Password1" 12, Role.USER, 0, 0⟩

/-- Example store holding uEx and the refresh token issued for it. -/
def sEx : Store := ⟨[uEx], [⟨tksEx.refreshToken, "u1"⟩]⟩

end Ecommerce

namespace Ecommerce

/-- If a predicate finds nothing in the first list, searching the
concatenation searches the second list. -/
theorem find?_append_of_none {α : Type} (p : α → Bool) (l₁ l₂ : List α)
    (h : l₁.find? p = none) : (l₁ ++ l₂).find? p = l₂.find? p := by
  rw [List.find?_append, h, Option.none_or]

/-- Filtering by the complement of a predicate leaves nothing for the
predicate to find. -/
theorem find?_filter_not {α : Type} (p : α → Bool) (l : List α) :
    (l.filter (fun a => !(p a))).find? p = none := by
  rw [List.find?_eq_none]
  intro x hx
  have := List.of_mem_filter hx
  simp at this
  simp [this]

/-- Filtering twice by the same predicate is the same as filtering once. -/
theorem filter_idem {α : Type} (p : α → Bool) (l : List α) :
    (l.filter p).filter p = l.filter p := by
  rw [List.filter_filter]
  simp

/-- If a predicate finds nothing, filtering by its complement is the
identity. -/
theorem filter_not_eq_self_of_find?_none {α : Type} (p : α → Bool) (l : List α)
    (h : l.find? p = none) : l.filter (fun a => !(p a)) = l := by
  rw [List.find?_eq_none] at h
  apply List.filter_eq_self.mpr
  intro a ha
  simp [h a ha]

/-- C1: whether login fails because no user carries the email or because
the bcrypt comparison rejects the password, it fails with the identical
UnauthorizedError (code UNAUTHORIZED, message "Credenciales inválidas",
status 401) and leaves the store untouched, so the error does not reveal
which check failed. -/
theorem login_failure_uniform_error (cfg : Config) (s : Store)
    (email pw : String) (now : Nat)
    (h : AuthRepository.findUserByEmail s email = none ∨
         ∃ u, AuthRepository.findUserByEmail s email = some u ∧
              bcryptCompare pw u.password = false) :
    AuthService.login cfg s email pw now =
      (.error (unauthorizedError "Credenciales inválidas"), s) := by
  unfold AuthService.login
  rcases h with h | ⟨u, hu, hc⟩
  · rw [h]
  · rw [hu]
    simp [hc]

/-- Witness for C1: both failure causes, at concrete inputs, produce the
identical error.  The store sEx holds alice with the hash of Password1;
an unknown email and a wrong password for alice both yield the same
UnauthorizedError. -/
theorem login_failure_uniform_error_witness :
    (AuthRepository.findUserByEmail sEx "bob@example.com" = none ∧
     AuthService.login cfgEx sEx "bob@example.com" "Password1" 7 =
       (.error (unauthorizedError "Credenciales inválidas"), sEx)) ∧
    ((∃ u, AuthRepository.findUserByEmail sEx "alice@example.com" = some u ∧
           bcryptCompare "WrongPass9" u.password = false) ∧
     AuthService.login cfgEx sEx "alice@example.com" "WrongPass9" 7 =
       (.error (unauthorizedError "Credenciales inválidas"), sEx)) :=
  ⟨⟨by decide,
    login_failure_uniform_error cfgEx sEx "bob@example.com" "Password1" 7
      (Or.inl (by decide))⟩,
   ⟨⟨uEx, by decide, by decide⟩,
    login_failure_uniform_error cfgEx sEx "alice@example.com" "WrongPass9" 7
      (Or.inr ⟨uEx, by decide, by decide⟩)⟩⟩

/-- C2: registering an email already held by a stored user fails with
the duplicate-email ValidationError (code VALIDATION_ERROR, status 400)
and returns the store unchanged: no User record is created and no
refresh token is persisted. -/
theorem register_duplicate_email_rejected (cfg : Config) (s : Store)
    (email pw newId : String) (now : Nat)
    (h : ∃ u ∈ s.users, u.email = email) :
    AuthService.register cfg s email pw newId now =
      (.error (validationError "El email ya está registrado"), s) := by
  have he : AuthRepository.emailExists s email = true := by
    unfold AuthRepository.emailExists
    rw [List.find?_isSome]
    rcases h with ⟨u, hu, he⟩
    exact ⟨u, hu, by simp [he]⟩
  unfold AuthService.register
  rw [if_pos he]

/-- Witness for C2: registering alice@example.com a second time against
sEx fails with the ValidationError and leaves sEx unchanged. -/
theorem register_duplicate_email_rejected_witness :
    (∃ u ∈ sEx.users, u.email = "alice@example.com") ∧
    AuthService.register cfgEx sEx "alice@example.com" "Newpass123" "u2" 9 =
      (.error (validationError "El email ya está registrado"), sEx) :=
  ⟨⟨uEx, by decide, by decide⟩,
   register_duplicate_email_rejected cfgEx sEx "alice@example.com"
     "Newpass123" "u2" 9 ⟨uEx, by decide, by decide⟩⟩

/-- C4: round-trip — verifying, with the access secret and before the
one-hour expiry, the access token issued for (u, r) succeeds and yields
claims with userId u and role r. -/
theorem verifyAccessToken_roundtrip (cfg : Config) (u : String) (r : Role)
    (t0 now : Nat) (h : now < t0 + 3600) :
    AuthService.verifyAccessToken cfg
        (AuthService.generateAccessToken cfg u r t0) now =
      .ok ⟨u, some r⟩ := by
  unfold AuthService.verifyAccessToken AuthService.generateAccessToken
  unfold jwtSign jwtVerify
  simp [h, Payload.userId, Payload.role]

/-- Witness for C4: the access token issued at instant 0 for u1/USER
verifies at instant 100. -/
theorem verifyAccessToken_roundtrip_witness :
    100 < 0 + 3600 ∧
    AuthService.verifyAccessToken cfgEx
        (AuthService.generateAccessToken cfgEx "u1" Role.USER 0) 100 =
      .ok ⟨"u1", some Role.USER⟩ :=
  ⟨by decide, verifyAccessToken_roundtrip cfgEx "u1" Role.USER 0 100 (by decide)⟩

/-- C10: refreshToken never mutates the store — whatever the input token
and outcome, the store component of the result is the input store, so
the stored User and RefreshToken records are unchanged. -/
theorem refreshToken_store_unchanged (cfg : Config) (s : Store) (rt : Token)
    (now : Nat) : (AuthService.refreshToken cfg s rt now).2 = s := by
  unfold AuthService.refreshToken
  cases jwtVerify rt cfg.jwtRefreshSecret now with
  | none => rfl
  | some decoded =>
    cases AuthRepository.findRefreshToken s rt with
    | none => rfl
    | some storedUserId =>
      by_cases he : storedUserId = decoded.userId
      · simp only [if_pos he]
        cases AuthRepository.findUserById s decoded.userId <;> rfl
      · simp only [if_neg he]

/-- C5: for a refresh token whose signature verifies, absence from the
store or a stored owner differing from the verified claim's userId makes
refreshToken fail with Unauthorized("Refresh token inválido"), store
unchanged. -/
theorem refresh_absent_or_mismatch_unauthorized (cfg : Config) (s : Store)
    (rt : Token) (now : Nat) (p : Payload)
    (hv : jwtVerify rt cfg.jwtRefreshSecret now = some p)
    (h : AuthRepository.findRefreshToken s rt = none ∨
         ∃ su, AuthRepository.findRefreshToken s rt = some su ∧
               su ≠ p.userId) :
    AuthService.refreshToken cfg s rt now =
      (.error (unauthorizedError "Refresh token inválido"), s) := by
  unfold AuthService.refreshToken
  rw [hv]
  rcases h with h | ⟨su, hsu, hne⟩
  · rw [h]
  · rw [hsu]
    simp only [if_neg hne]

/-- Witness for C5: a cryptographically valid refresh token issued at
instant 0, never stored (empty store), is rejected at instant 10; and
the same token stored under the wrong owner u2 is also rejected. -/
theorem refresh_absent_or_mismatch_unauthorized_witness :
    (jwtVerify (AuthService.generateRefreshToken cfgEx "u1" 0)
        cfgEx.jwtRefreshSecret 10 = some (Payload.refresh "u1") ∧
     AuthService.refreshToken cfgEx ⟨[], []⟩
        (AuthService.generateRefreshToken cfgEx "u1" 0) 10 =
       (.error (unauthorizedError "Refresh token inválido"), ⟨[], []⟩)) ∧
    AuthService.refreshToken cfgEx
        ⟨[], [⟨AuthService.generateRefreshToken cfgEx "u1" 0, "u2"⟩]⟩
        (AuthService.generateRefreshToken cfgEx "u1" 0) 10 =
      (.error (unauthorizedError "Refresh token inválido"),
       ⟨[], [⟨AuthService.generateRefreshToken cfgEx "u1" 0, "u2"⟩]⟩) :=
  ⟨⟨by decide,
    refresh_absent_or_mismatch_unauthorized cfgEx ⟨[], []⟩
      (AuthService.generateRefreshToken cfgEx "u1" 0) 10
      (Payload.refresh "u1") (by decide) (Or.inl (by decide))⟩,
   refresh_absent_or_mismatch_unauthorized cfgEx
     ⟨[], [⟨AuthService.generateRefreshToken cfgEx "u1" 0, "u2"⟩]⟩
     (AuthService.generateRefreshToken cfgEx "u1" 0) 10
     (Payload.refresh "u1") (by decide)
     (Or.inr ⟨"u2", by decide, by decide⟩)⟩

/-- C7: logout is idempotent — a second logout with the same token is a
no-op, logging out an absent token leaves the store unchanged (and never
errors: logout is total), after logout the token is gone from the store,
and a subsequent refreshToken with that token fails with Unauthorized. -/
theorem logout_idempotent_and_blocks_refresh (cfg : Config) (s : Store)
    (rt : Token) (now : Nat) :
    AuthService.logout (AuthService.logout s rt) rt = AuthService.logout s rt ∧
    (AuthRepository.findRefreshToken s rt = none → AuthService.logout s rt = s) ∧
    AuthRepository.findRefreshToken (AuthService.logout s rt) rt = none ∧
    (AuthService.refreshToken cfg (AuthService.logout s rt) rt now).1 =
      .error (unauthorizedError "Refresh token inválido") := by
  have hgone : AuthRepository.findRefreshToken (AuthService.logout s rt) rt = none := by
    unfold AuthService.logout AuthRepository.deleteRefreshToken
      AuthRepository.findRefreshToken
    rw [find?_filter_not]
    rfl
  refine ⟨?_, ?_, hgone, ?_⟩
  · unfold AuthService.logout AuthRepository.deleteRefreshToken
    simp only [filter_idem]
  · intro h
    unfold AuthRepository.findRefreshToken at h
    rw [Option.map_eq_none'] at h
    unfold AuthService.logout AuthRepository.deleteRefreshToken
    rw [filter_not_eq_self_of_find?_none _ _ h]
  · unfold AuthService.refreshToken
    cases jwtVerify rt cfg.jwtRefreshSecret now with
    | none => rfl
    | some decoded => rw [hgone]

/-- Witness for C7: concrete double logout on sEx, logout of a token
absent from the empty store, and the failing refresh after logout. -/
theorem logout_idempotent_and_blocks_refresh_witness :
    AuthService.logout (AuthService.logout sEx tksEx.refreshToken)
        tksEx.refreshToken = AuthService.logout sEx tksEx.refreshToken ∧
    AuthService.logout ⟨[uEx], []⟩ tksEx.refreshToken = ⟨[uEx], []⟩ ∧
    (AuthService.refreshToken cfgEx (AuthService.logout sEx tksEx.refreshToken)
        tksEx.refreshToken 5).1 =
      .error (unauthorizedError "Refresh token inválido") :=
  ⟨(logout_idempotent_and_blocks_refresh cfgEx sEx tksEx.refreshToken 5).1,
   (logout_idempotent_and_blocks_refresh cfgEx ⟨[uEx], []⟩
      tksEx.refreshToken 5).2.1 (by decide),
   (logout_idempotent_and_blocks_refresh cfgEx sEx tksEx.refreshToken 5).2.2.2⟩

/-- C8: an expired refresh token still present in the store is rejected
with Unauthorized("Refresh token inválido") by the signature/expiry
verification step, which runs before the store lookup: the same failure
is produced for every store whatsoever, so the failure is due to expiry,
not absence. -/
theorem refresh_expired_fails_before_store_lookup (cfg : Config) (s : Store)
    (rt : Token) (now : Nat)
    (_hsec : rt.secret = cfg.jwtRefreshSecret) (hexp : rt.exp ≤ now)
    (_hstored : (AuthRepository.findRefreshToken s rt).isSome = true) :
    (AuthService.refreshToken cfg s rt now).1 =
      .error (unauthorizedError "Refresh token inválido") ∧
    ∀ s2 : Store, AuthService.refreshToken cfg s2 rt now =
      (.error (unauthorizedError "Refresh token inválido"), s2) := by
  have hv : jwtVerify rt cfg.jwtRefreshSecret now = none := by
    unfold jwtVerify
    rw [if_neg]
    rintro ⟨-, hlt⟩
    omega
  constructor
  · unfold AuthService.refreshToken
    rw [hv]
  · intro s2
    unfold AuthService.refreshToken
    rw [hv]

/-- Witness for C8: the refresh token issued at instant 0 (expiry
604800) is expired at instant 700000 while still stored in sEx, and the
refresh call fails with the Unauthorized error. -/
theorem refresh_expired_fails_before_store_lookup_witness :
    tksEx.refreshToken.secret = cfgEx.jwtRefreshSecret ∧
    tksEx.refreshToken.exp ≤ 700000 ∧
    (AuthRepository.findRefreshToken sEx tksEx.refreshToken).isSome = true ∧
    (AuthService.refreshToken cfgEx sEx tksEx.refreshToken 700000).1 =
      .error (unauthorizedError "Refresh token inválido") :=
  ⟨by decide, by decide, by decide,
   (refresh_expired_fails_before_store_lookup cfgEx sEx tksEx.refreshToken
      700000 (by decide) (by decide) (by decide)).1⟩

/-- C3 counterexample: the claim says verifyToken responds 401 whenever
the Authorization header is malformed (not of the form "Bearer <token>"),
yet the header "Token <valid-jwt>" — whose first word is not "Bearer" —
is accepted and the identity attached, because the code reads
split(' ')[1] without ever checking the scheme word. -/
theorem verifyToken_accepts_malformed_header :
    AuthMiddleware.isBearerForm
        [AuthMiddleware.HeaderWord.text "Token",
         AuthMiddleware.HeaderWord.tok
           (AuthService.generateAccessToken cfgEx "u1" Role.USER 0)] = false ∧
    AuthMiddleware.verifyToken cfgEx
        (some [AuthMiddleware.HeaderWord.text "Token",
               AuthMiddleware.HeaderWord.tok
                 (AuthService.generateAccessToken cfgEx "u1" Role.USER 0)]) 10 =
      AuthMiddleware.MwOutcome.accept "u1" (some Role.USER) := by
  decide

/-- C3 (amended): verifyToken responds 401 when the Authorization header
is absent or empty, when the space-split value has no nonempty second
word, or when the second word fails access-token verification; the first
word is never compared against "Bearer"; on success it attaches exactly
the userId and role of the verified claims of the second word. -/
theorem verifyToken_characterization (cfg : Config) (now : Nat) :
    (AuthMiddleware.verifyToken cfg none now =
       .reject 401 "Token de acceso requerido") ∧
    (AuthMiddleware.verifyToken cfg
       (some [AuthMiddleware.HeaderWord.text ""]) now =
       .reject 401 "Token de acceso requerido") ∧
    (∀ ws, AuthMiddleware.headerFalsy ws = false → ws.get? 1 = none →
       AuthMiddleware.verifyToken cfg (some ws) now =
         .reject 401 "Formato de token inválido") ∧
    (∀ ws, AuthMiddleware.headerFalsy ws = false →
       ws.get? 1 = some (AuthMiddleware.HeaderWord.text "") →
       AuthMiddleware.verifyToken cfg (some ws) now =
         .reject 401 "Formato de token inválido") ∧
    (∀ ws w e, AuthMiddleware.headerFalsy ws = false → ws.get? 1 = some w →
       AuthMiddleware.HeaderWord.falsy w = false →
       AuthMiddleware.verifyAccessTokenWord cfg w now = .error e →
       AuthMiddleware.verifyToken cfg (some ws) now =
         .reject 401 "Token inválido o expirado") ∧
    (∀ ws w p, ws.get? 1 = some w →
       AuthMiddleware.verifyAccessTokenWord cfg w now = .ok p →
       AuthMiddleware.verifyToken cfg (some ws) now =
         .accept p.userId p.role) := by
  refine ⟨rfl, rfl, ?_, ?_, ?_, ?_⟩
  · intro ws h1 h2
    simp only [AuthMiddleware.verifyToken, h1, h2]
    rfl
  · intro ws h1 h2
    simp only [AuthMiddleware.verifyToken, h1, h2]
    rfl
  · intro ws w e h1 h2 h3 h4
    simp only [AuthMiddleware.verifyToken, h1, h2, h3, h4]
    rfl
  · intro ws w p h2 hok
    have h1 : AuthMiddleware.headerFalsy ws = false := by
      unfold AuthMiddleware.headerFalsy
      rw [beq_eq_false_iff_ne]
      intro hws
      rw [hws] at h2
      exact Option.noConfusion h2
    have h3 : AuthMiddleware.HeaderWord.falsy w = false := by
      cases w with
      | text str =>
        exfalso
        simp only [AuthMiddleware.verifyAccessTokenWord] at hok
        exact Except.noConfusion hok
      | tok t => rfl
    simp only [AuthMiddleware.verifyToken, h1, h2, h3, hok]
    rfl

/-- Witness for C3 (amended): concrete instantiations of each clause
that carries a hypothesis — a one-word header, an unverifiable second
word, and a valid second word after a non-Bearer first word. -/
theorem verifyToken_characterization_witness :
    AuthMiddleware.verifyToken cfgEx none 10 =
      .reject 401 "Token de acceso requerido" ∧
    AuthMiddleware.verifyToken cfgEx
        (some [AuthMiddleware.HeaderWord.text "Bearer"]) 10 =
      .reject 401 "Formato de token inválido" ∧
    AuthMiddleware.verifyToken cfgEx
        (some [AuthMiddleware.HeaderWord.text "Bearer",
               AuthMiddleware.HeaderWord.text "garbage"]) 10 =
      .reject 401 "Token inválido o expirado" ∧
    AuthMiddleware.verifyToken cfgEx
        (some [AuthMiddleware.HeaderWord.text "Bearer",
               AuthMiddleware.HeaderWord.tok
                 (AuthService.generateAccessToken cfgEx "u1" Role.USER 0)]) 10 =
      .accept "u1" (some Role.USER) :=
  ⟨(verifyToken_characterization cfgEx 10).1,
   (verifyToken_characterization cfgEx 10).2.2.1
     [AuthMiddleware.HeaderWord.text "Bearer"] (by decide) (by decide),
   (verifyToken_characterization cfgEx 10).2.2.2.2.1
     [AuthMiddleware.HeaderWord.text "Bearer",
      AuthMiddleware.HeaderWord.text "garbage"]
     (AuthMiddleware.HeaderWord.text "garbage")
     (unauthorizedError "Token inválido") (by decide) (by decide) (by decide)
     (by decide),
   (verifyToken_characterization cfgEx 10).2.2.2.2.2
     [AuthMiddleware.HeaderWord.text "Bearer",
      AuthMiddleware.HeaderWord.tok
        (AuthService.generateAccessToken cfgEx "u1" Role.USER 0)]
     (AuthMiddleware.HeaderWord.tok
        (AuthService.generateAccessToken cfgEx "u1" Role.USER 0))
     ⟨"u1", some Role.USER⟩ (by decide) (by decide)⟩

/-- C6 counterexample: jwt.sign is deterministic, so refreshing at the
very instant the pair was issued (same userId, role, secret and
issued-at) returns an access token identical to the originally issued
one, refuting the unconditional "differing" part of the claim.  Here
the pair for u1 was issued at instant 0 and the refresh call happens at
instant 0 against the store holding the token and the user. -/
theorem refresh_same_instant_identical_access_token :
    (AuthService.refreshToken cfgEx sEx tksEx.refreshToken 0).1 =
      .ok ⟨tksEx.accessToken, tksEx.refreshToken⟩ := by
  decide

/-- C6 (amended): for a valid, stored refresh token whose owning user
exists, refreshToken succeeds, returns the input refresh token itself
(string-equal) and a newly issued access token, which differs from the
access token originally issued with that refresh token whenever the
refresh happens at a different instant than the original issuance. -/
theorem refresh_reuses_refresh_and_renews_access (cfg : Config) (s : Store)
    (uid : String) (role : Role) (t0 now : Nat) (u : User)
    (hexp : now < t0 + 604800)
    (hstore : AuthRepository.findRefreshToken s
        (AuthService.generateTokens cfg uid role t0).refreshToken = some uid)
    (huser : AuthRepository.findUserById s uid = some u)
    (hne : now ≠ t0) :
    AuthService.refreshToken cfg s
        (AuthService.generateTokens cfg uid role t0).refreshToken now =
      (.ok ⟨AuthService.generateAccessToken cfg u.id u.role now,
            (AuthService.generateTokens cfg uid role t0).refreshToken⟩, s) ∧
    AuthService.generateAccessToken cfg u.id u.role now ≠
      (AuthService.generateTokens cfg uid role t0).accessToken := by
  constructor
  · have hv : jwtVerify
        (AuthService.generateTokens cfg uid role t0).refreshToken
        cfg.jwtRefreshSecret now = some (Payload.refresh uid) := by
      unfold AuthService.generateTokens AuthService.generateRefreshToken
        jwtSign jwtVerify
      simp [hexp]
    unfold AuthService.refreshToken
    rw [hv]
    have hid : (Payload.refresh uid).userId = uid := rfl
    rw [hstore]
    simp [hid, huser]
  · intro heq
    have hiat : now = t0 := congrArg Token.iat heq
    exact hne hiat

/-- Witness for C6 (amended): refreshing the pair issued at instant 0
for u1 at instant 5 against sEx returns the same refresh token and an
access token different from the original. -/
theorem refresh_reuses_refresh_and_renews_access_witness :
    AuthRepository.findRefreshToken sEx
        (AuthService.generateTokens cfgEx "u1" Role.USER 0).refreshToken =
      some "u1" ∧
    AuthRepository.findUserById sEx "u1" = some uEx ∧
    AuthService.refreshToken cfgEx sEx
        (AuthService.generateTokens cfgEx "u1" Role.USER 0).refreshToken 5 =
      (.ok ⟨AuthService.generateAccessToken cfgEx uEx.id uEx.role 5,
            (AuthService.generateTokens cfgEx "u1" Role.USER 0).refreshToken⟩,
       sEx) ∧
    AuthService.generateAccessToken cfgEx uEx.id uEx.role 5 ≠
      (AuthService.generateTokens cfgEx "u1" Role.USER 0).accessToken :=
  ⟨by decide, by decide,
   (refresh_reuses_refresh_and_renews_access cfgEx sEx "u1" Role.USER 0 5 uEx
      (by decide) (by decide) (by decide) (by decide)).1,
   (refresh_reuses_refresh_and_renews_access cfgEx sEx "u1" Role.USER 0 5 uEx
      (by decide) (by decide) (by decide) (by decide)).2⟩

/-- C9: registering a fresh email succeeds; the created user has role
USER; the returned user object carries only id, email, role and
createdAt (the password hash is stripped); the returned access token
verifies, before its one-hour expiry, to the new userId with role USER;
and the returned refresh token is persisted in the store and resolves
to the same userId. -/
theorem register_success (cfg : Config) (s : Store) (email pw newId : String)
    (now tv : Nat)
    (hdup : AuthRepository.emailExists s email = false)
    (hid : AuthRepository.findUserById s newId = none)
    (hfresh : AuthRepository.findRefreshToken s
        (AuthService.generateRefreshToken cfg newId now) = none)
    (htv : tv < now + 3600) :
    ∃ tokens s2,
      AuthService.register cfg s email pw newId now =
        (.ok (⟨newId, email, Role.USER, now⟩, tokens), s2) ∧
      (∃ u, AuthRepository.findUserById s2 newId = some u ∧
            u.role = Role.USER ∧ u.email = email) ∧
      AuthService.verifyAccessToken cfg tokens.accessToken tv =
        .ok ⟨newId, some Role.USER⟩ ∧
      AuthRepository.findRefreshToken s2 tokens.refreshToken = some newId := by
  refine ⟨AuthService.generateTokens cfg newId Role.USER now,
    ⟨s.users ++ [⟨newId, email, bcryptHash pw cfg.saltRounds, Role.USER, now, now⟩],
     s.refreshTokens ++
       [⟨AuthService.generateRefreshToken cfg newId now, newId⟩]⟩,
    ?_, ?_, ?_, ?_⟩
  · unfold AuthService.register AuthRepository.createUser
      AuthRepository.createRefreshToken AuthService.formatUserResponse
    simp only [hdup]
    rfl
  · refine ⟨⟨newId, email, bcryptHash pw cfg.saltRounds, Role.USER, now, now⟩,
      ?_, rfl, rfl⟩
    unfold AuthRepository.findUserById
    unfold AuthRepository.findUserById at hid
    rw [find?_append_of_none _ _ _ hid]
    simp
  · unfold AuthService.generateTokens AuthService.generateAccessToken
      AuthService.verifyAccessToken jwtSign jwtVerify
    simp [htv, Payload.userId, Payload.role]
  · unfold AuthRepository.findRefreshToken
    unfold AuthRepository.findRefreshToken at hfresh
    rw [Option.map_eq_none'] at hfresh
    dsimp only [AuthService.generateTokens]
    rw [find?_append_of_none _ _ _ hfresh]
    simp

/-- Witness for C9: registering alice@example.com into the empty store
at instant 0, with the access token checked at instant 100. -/
theorem register_success_witness :
    AuthRepository.emailExists ⟨[], []⟩ "alice@example.com" = false ∧
    ∃ tokens s2,
      AuthService.register cfgEx ⟨[], []⟩ "alice@example.com" "Password1"
          "u9" 0 =
        (.ok (⟨"u9", "alice@example.com", Role.USER, 0⟩, tokens), s2) ∧
      (∃ u, AuthRepository.findUserById s2 "u9" = some u ∧
            u.role = Role.USER ∧ u.email = "alice@example.com") ∧
      AuthService.verifyAccessToken cfgEx tokens.accessToken 100 =
        .ok ⟨"u9", some Role.USER⟩ ∧
      AuthRepository.findRefreshToken s2 tokens.refreshToken = some "u9" :=
  ⟨by decide,
   register_success cfgEx ⟨[], []⟩ "alice@example.com" "Password1" "u9" 0 100
     (by decide) (by decide) (by decide) (by decide)⟩

end Ecommerce
